import Mathlib

set_option maxHeartbeats 1000000

/-
Verification of the Baymax edge-worker request pipeline
(src/worker/src/index.ts, with the variant in src/unnamed/part_001).

The worker is a single Cloudflare Workers fetch handler.  The model below is a
shallow embedding of the authenticated chat-turn pipeline (the fall-through
POST branch, src/worker/src/index.ts lines 200-306) and of the login handler
(lines 133-169).  External effects -- key-value store reads and writes, the
vector-search call and the model call -- are represented explicitly: the
handler is a pure function of the request data and of oracles describing what
each external call would return, and it reports the sequence of external
operations it performed together with the value (if any) written back to the
history store.
-/

namespace Baymax

/-- A chat message: role tag and text content.  Mirrors the element type of
the history array at src/worker/src/index.ts line 226. -/
structure Message where
  role : String
  content : String
deriving DecidableEq, Repr

/-- src/worker/src/index.ts line 33. -/
def MAX_HISTORY : Nat := 20

/-- src/worker/src/index.ts line 39. -/
def LOGIN_ATTEMPT_LIMIT : Nat := 5

/-- src/worker/src/index.ts line 40: 60 * 15 seconds. -/
def LOGIN_BLOCK_TTL : Nat := 60 * 15

/-- src/worker/src/index.ts line 41: 64 * 1024 bytes. -/
def JSON_BODY_LIMIT : Nat := 64 * 1024

/-- The default history created when no record is stored,
src/worker/src/index.ts line 228. -/
def defaultSystemMessage : Message :=
  ⟨"system", "You are Baymax, a friendly medical AI giving safe health advice."⟩

/-- JS regex class backslash-s used at line 220; Char.isWhitespace covers the
ASCII whitespace characters that matter for the embedded strings. -/
def isJsSpace (c : Char) : Bool := c.isWhitespace

/-- One pass of the replacement at line 220: every run of whitespace becomes a
single space.  The Bool argument records whether we are inside a run. -/
def collapseWs : List Char → Bool → List Char
  | [], _ => []
  | c :: rest, inRun =>
    if isJsSpace c then
      if inRun then collapseWs rest true
      else ' ' :: collapseWs rest true
    else c :: collapseWs rest false

/-- JS String.prototype.trim: drop leading and trailing whitespace.  Defined
structurally on the character list so that concrete runs reduce. -/
def jsTrim (s : String) : String :=
  String.mk (((s.data.dropWhile isJsSpace).reverse.dropWhile isJsSpace).reverse)

/-- src/worker/src/index.ts line 220:
userMessage.replace(regex of whitespace runs, one space).trim(). -/
def sanitizeInput (s : String) : String :=
  jsTrim (String.mk (collapseWs s.data false))

/-- JS slice with a negative index: the last n elements of the list.
Used at line 231 (slice of the negated kept count). -/
def lastN (n : Nat) (l : List Message) : List Message :=
  l.drop (l.length - n)

/-- The role test used by find and filter at lines 230-231. -/
def isSystem (m : Message) : Bool := m.role == "system"

/-- src/worker/src/index.ts lines 230-232: find the first system message,
keep the last MAX_HISTORY - 1 (or MAX_HISTORY if no system message)
non-system messages, and put the system message back in front. -/
def trimHistory (history : List Message) : List Message :=
  match history.find? isSystem with
  | some sys => sys :: lastN (MAX_HISTORY - 1) (history.filter fun m => !isSystem m)
  | none => lastN MAX_HISTORY (history.filter fun m => !isSystem m)

/-- One vector-search result, src/worker/src/index.ts lines 13-17.  All three
fields are optional in the upstream JSON. -/
structure VectorResult where
  medicineName : Option String
  uses : Option String
  sideEffects : Option String
deriving DecidableEq, Repr

/-- Outcome of the vector-search call, lines 235-261.  failure covers a thrown
network error or timeout; notOk a response with ok false; malformed a body
whose JSON parse fails (vectorData null).  A parsed body whose results field
is missing behaves exactly like ok with the empty list (both leave context
empty and embeddings untouched), so it is folded into ok. -/
inductive VectorOutcome where
  | failure
  | notOk
  | malformed
  | ok (results : List VectorResult)
deriving DecidableEq, Repr

/-- Formatting of one result, lines 249-253.  The leading three characters are
the literal bytes present in the source file. -/
def formatVectorResult (r : VectorResult) : String :=
  "â€¢ " ++ r.medicineName.getD "Unknown" ++ ": Used for " ++ r.uses.getD "N/A"
    ++ ". Side effects: " ++ r.sideEffects.getD "None listed"

/-- JS Array.prototype.join with a newline separator, line 255. -/
def joinLines : List String → String
  | [] => ""
  | [s] => s
  | s :: rest => s ++ "\n" ++ joinLines rest

/-- The context string computed by lines 233-261: empty unless the call
succeeded with a parsed body whose results list is non-empty (JS truthiness of
results.length). -/
def computeContext : VectorOutcome → String
  | .ok results => if results.isEmpty then "" else joinLines (results.map formatVectorResult)
  | _ => ""

/-- The embeddings echoed in the response input field, line 256: set only in
the same branch that sets the context. -/
def computeEmbeddings : VectorOutcome → List VectorResult
  | .ok results => if results.isEmpty then [] else results
  | _ => []

/-- The synthetic system message prepended at lines 262-267. -/
def contextMessage (context : String) : Message :=
  ⟨"system", "Medical database context:\n" ++ context ++ "\n\nRespond as Baymax, using this data carefully."⟩

/-- One element of the choices array of the model response, lines 23-26.
message is optional and its content field is optional. -/
structure GroqChoice where
  message : Option (Option String)
  text : Option String
deriving DecidableEq, Repr

/-- The top-level reply field of the model response may hold any JSON value;
line 292 only uses it when it is a string. -/
inductive GroqReplyField where
  | str (s : String)
  | nonString
deriving DecidableEq, Repr

/-- Model response body, lines 28-31. -/
structure GroqResponse where
  choices : Option (List GroqChoice)
  reply : Option GroqReplyField
deriving DecidableEq, Repr

/-- The doubly-optional access data?.choices?.[0], lines 290-291. -/
def firstChoice (data : Option GroqResponse) : Option GroqChoice :=
  data.bind fun d => d.choices.bind List.head?

/-- data?.choices?.[0]?.message?.content, line 290. -/
def firstChoiceContent (data : Option GroqResponse) : Option String :=
  (firstChoice data).bind fun c => c.message.bind id

/-- data?.choices?.[0]?.text, line 291. -/
def firstChoiceText (data : Option GroqResponse) : Option String :=
  (firstChoice data).bind fun c => c.text

/-- The guarded top-level reply access, line 292: the value only when it is a
string. -/
def topLevelReply (data : Option GroqResponse) : Option String :=
  data.bind fun d => d.reply.bind fun r =>
    match r with
    | .str s => some s
    | .nonString => none

/-- The nullish-coalescing chain of lines 289-293. -/
def rawReplyOf (data : Option GroqResponse) : String :=
  (((firstChoiceContent data).orElse fun _ => firstChoiceText data).orElse fun _ =>
    topLevelReply data).getD "Model returned no reply"

/-- Outcome of the model call, lines 270-288.  err is the branch of line 280:
a response whose ok field is false, carrying its status and body text (a null
response is err 0 with the no-response placeholder).  ok is a response with ok
true, carrying the parsed JSON body (none when the body fails to parse,
line 288). -/
inductive ModelOutcome where
  | err (status : Nat) (body : String)
  | ok (data : Option GroqResponse)
deriving DecidableEq, Repr

/-- The raw value found in the history store for a session key, as seen by
line 225.  absent: no record.  invalidJson: a record whose text makes
JSON.parse throw.  nonArray: valid JSON that is not an array (in index.ts the
subsequent push call throws on every such value; part_001 resets it to the
default).  array: a well-formed array of role/content messages. -/
inductive StoredRaw where
  | absent
  | invalidJson
  | nonArray
  | array (msgs : List Message)
deriving DecidableEq, Repr

/-- Reading the stored history in src/worker/src/index.ts lines 225-229: no
record gives the default single system message; a record that is invalid JSON
throws at JSON.parse (line 227); valid JSON that is not an array throws at the
push on line 229.  Both throws land in the outer catch (lines 307-311). -/
def readHistory : StoredRaw → Except Unit (List Message)
  | .absent => .ok [defaultSystemMessage]
  | .invalidJson => .error ()
  | .nonArray => .error ()
  | .array msgs => .ok msgs

/-- Reading the stored history in the variant src/unnamed/part_001 lines
237-244: same as readHistory except that valid JSON which is not an array is
reset to the default by the explicit Array.isArray check.  Invalid JSON still
throws at JSON.parse on line 239 of that file. -/
def readHistoryChecked : StoredRaw → Except Unit (List Message)
  | .absent => .ok [defaultSystemMessage]
  | .invalidJson => .error ()
  | .nonArray => .ok [defaultSystemMessage]
  | .array msgs => .ok msgs

/-- External operations performed by the chat handler, in order.  usersPut is
a write to the BAYMAX_USERS namespace; ownerGet, ownerPut, historyGet and
historyPut are operations on CHAT_HISTORY_BAYMAX_PROXY; vectorCall and
modelCall are the two upstream HTTP calls. -/
inductive Effect where
  | usersPut (key : String)
  | ownerGet (key : String)
  | ownerPut (key : String) (value : String)
  | historyGet (key : String)
  | historyPut (key : String) (value : List Message)
  | vectorCall
  | modelCall
deriving DecidableEq, Repr

/-- Authorization state of the request.  missing: no Bearer token in the
Authorization header (line 203).  invalid: verifyJWT throws, which covers a
bad signature, an expired token and a payload without a username (lines
64-72).  valid: verifyJWT returned a username; nearExpiry is the condition of
line 207 (less than TOKEN_REFRESH_THRESHOLD seconds of validity left), which
triggers the refresh-token write of line 209. -/
inductive TokenAuth where
  | missing
  | invalid
  | valid (username : String) (nearExpiry : Bool)
deriving DecidableEq, Repr

/-- The parsed JSON request body as used by lines 213-219.  Each field is
present only when it exists and is a string (the typeof checks). -/
structure ChatBody where
  userMessage : Option String
  sessionId : Option String
deriving DecidableEq, Repr

/-- Everything observable about one run of the chat branch: the HTTP status,
the response fields the claims talk about, the list of external operations in
order, the message list sent to the model (none when the model call was never
reached) and the history value written back to the store (none when no write
of the session history record happened). -/
structure ChatOutcome where
  status : Nat
  error : Option String
  upstreamStatus : Option Nat
  detail : Option String
  contextOut : Option String
  embeddingsOut : List VectorResult
  historyLength : Option Nat
  rawOut : Option String
  refinedOut : Option String
  sentToModel : Option (List Message)
  persisted : Option (List Message)
  effects : List Effect
deriving DecidableEq, Repr

/-- A jsonResponse error return: only status, error text and the effects so
far are populated. -/
def errOutcome (status : Nat) (msg : String) (effects : List Effect) : ChatOutcome :=
  ⟨status, some msg, none, none, none, [], none, none, none, none, none, effects⟩

/-- The outer catch of lines 307-311 converting a thrown exception into a 500;
the error text there is the runtime exception message, which the model leaves
unconstrained. -/
def internalErrorOutcome (effects : List Effect) : ChatOutcome :=
  ⟨500, none, none, none, none, [], none, none, none, none, none, effects⟩

/-- Lines 225-306 of src/worker/src/index.ts: load the history, append the
user message, trim, augment with vector context, call the model, append the
assistant reply and persist.  effs0 are the effects already performed by the
surrounding validation code. -/
def chatCore (sid sanitized : String) (stored : StoredRaw) (vec : VectorOutcome)
    (model : ModelOutcome) (effs0 : List Effect) : ChatOutcome :=
  let effs1 := effs0 ++ [Effect.historyGet sid]
  match readHistory stored with
  | .error _ => internalErrorOutcome effs1
  | .ok history0 =>
    let history1 := trimHistory (history0 ++ [⟨"user", sanitized⟩])
    let context := computeContext vec
    let history2 := if context = "" then history1 else contextMessage context :: history1
    let effs2 := effs1 ++ [Effect.vectorCall, Effect.modelCall]
    match model with
    | .err status body =>
      ⟨502, some "Upstream model error", some status, some body, none, [],
        none, none, none, some history2, none, effs2⟩
    | .ok data =>
      let rawReply := rawReplyOf data
      let refinedReply := jsTrim rawReply
      let history3 := history2 ++ [⟨"assistant", refinedReply⟩]
      ⟨200, none, none, none, some context, computeEmbeddings vec,
        some history3.length, some rawReply, some refinedReply,
        some history2, some history3, effs2 ++ [Effect.historyPut sid history3]⟩

/-- The refresh-token write of line 209, performed when the verified token is
near expiry. -/
def refreshEffects (username : String) (nearExpiry : Bool) : List Effect :=
  if nearExpiry then [Effect.usersPut (username ++ "_token")] else []

/-- parseJsonLimited, lines 74-85: the request is too large when the declared
content-length header exceeds the limit or the measured body length does.
Either throw is swallowed by the catch on line 211, leaving a null body. -/
def bodyTooLarge (contentLength : Option Nat) (bodyLen : Nat) : Bool :=
  (match contentLength with
   | some n => decide (JSON_BODY_LIMIT < n)
   | none => false) || decide (JSON_BODY_LIMIT < bodyLen)

/-- Lines 200-306 of src/worker/src/index.ts: the fall-through primary chat
branch, reached when the origin is allowed and the path matched none of the
earlier routes.  Checks happen in source order: method, bearer token,
verifyJWT, token refresh, body parse with size limit, userMessage and
sessionId validation, session-owner check, then chatCore. -/
def handleChatRequest (method : String) (auth : TokenAuth) (contentLength : Option Nat)
    (bodyLen : Nat) (parsed : Option ChatBody) (owner : Option String)
    (stored : StoredRaw) (vec : VectorOutcome) (model : ModelOutcome) : ChatOutcome :=
  if method ≠ "POST" then errOutcome 405 "Only POST allowed" []
  else
    match auth with
    | .missing => errOutcome 401 "Unauthorized: missing token" []
    | .invalid => errOutcome 401 "Unauthorized" []
    | .valid username nearExpiry =>
      match (if bodyTooLarge contentLength bodyLen then none else parsed) with
      | none => errOutcome 400 "Invalid JSON" (refreshEffects username nearExpiry)
      | some body =>
        match body.userMessage.bind (fun s => if jsTrim s = "" then none else some (jsTrim s)) with
        | none => errOutcome 400 "Missing userMessage" (refreshEffects username nearExpiry)
        | some userMessage =>
          if 20000 < userMessage.length then
            errOutcome 413 "userMessage too long" (refreshEffects username nearExpiry)
          else
            match body.sessionId with
            | none => errOutcome 400 "Missing or invalid sessionId" (refreshEffects username nearExpiry)
            | some sid =>
              if sid = "" ∨ 256 < sid.length then
                errOutcome 400 "Missing or invalid sessionId" (refreshEffects username nearExpiry)
              else
                match owner with
                | some o =>
                  if o ≠ username then
                    errOutcome 403 "Unauthorized access to history"
                      (refreshEffects username nearExpiry ++ [Effect.ownerGet (sid ++ "_owner")])
                  else
                    chatCore sid (sanitizeInput userMessage) stored vec model
                      (refreshEffects username nearExpiry ++ [Effect.ownerGet (sid ++ "_owner")])
                | none =>
                  chatCore sid (sanitizeInput userMessage) stored vec model
                    (refreshEffects username nearExpiry ++
                      [Effect.ownerGet (sid ++ "_owner"), Effect.ownerPut (sid ++ "_owner") username])

/-- Per-username login rate-limit state held in BAYMAX_USERS: the attempts
counter with its expiry instant, and the block flag with its expiry instant.
A key written with expirationTtl t at time now expires at now + t and a get
at or after that instant returns null. -/
structure LoginState where
  attempts : Option (Nat × Nat)
  blocked : Option Nat
deriving DecidableEq, Repr

/-- Whether the block key is live at the given instant (line 142-143). -/
def isBlocked (now : Nat) (s : LoginState) : Bool :=
  match s.blocked with
  | some exp => now < exp
  | none => false

/-- The Number(get(attemptsKey)) or 0 read at lines 146 and 156, honouring the
TTL. -/
def liveAttempts (now : Nat) (s : LoginState) : Nat :=
  match s.attempts with
  | some (n, exp) => if now < exp then n else 0
  | none => 0

/-- Result of one login attempt: tooMany is the 429 of lines 143, 150 and 160;
invalidCred the 401 of lines 152 and 162; success the 200 of line 168. -/
inductive LoginResult where
  | tooMany
  | invalidCred
  | success
deriving DecidableEq, Repr

/-- Lines 140-168 of src/worker/src/index.ts for one username whose body
passed validation.  userExists models a non-null stored hash (line 144-145);
credOk the bcrypt comparison (line 154).  The two failure branches (lines
146-152 and 156-162) are textually identical: increment the live counter,
rewrite it with a fresh TTL, and set the block flag once the limit is
reached.  Success (lines 164-168) deletes the counter and the block flag. -/
def login (now : Nat) (s : LoginState) (userExists credOk : Bool) : LoginResult × LoginState :=
  if isBlocked now s then (.tooMany, s)
  else if userExists && credOk then
    (.success, ⟨none, none⟩)
  else
    let cur := liveAttempts now s + 1
    if LOGIN_ATTEMPT_LIMIT ≤ cur then
      (.tooMany, ⟨some (cur, now + LOGIN_BLOCK_TTL), some (now + LOGIN_BLOCK_TTL)⟩)
    else
      (.invalidCred, ⟨some (cur, now + LOGIN_BLOCK_TTL), s.blocked⟩)

/-- The state after a list of failed attempts (wrong password each time)
starting from a blank store. -/
def afterFailedAttempts (ts : List Nat) : LoginState :=
  ts.foldl (fun s t => (login t s true false).2) ⟨none, none⟩

end Baymax

namespace Baymax

theorem lastN_length_le (n : Nat) (l : List Message) : (lastN n l).length ≤ n := by
  simp [lastN]
  omega

theorem mem_of_mem_lastN {m : Message} {n : Nat} {l : List Message} (h : m ∈ lastN n l) :
    m ∈ l :=
  List.drop_subset _ l h

theorem trimHistory_length_le (l : List Message) : (trimHistory l).length ≤ MAX_HISTORY := by
  cases h : l.find? isSystem with
  | some sys =>
    have h1 := lastN_length_le (MAX_HISTORY - 1) (l.filter fun m => !isSystem m)
    simp only [trimHistory, h, List.length_cons, MAX_HISTORY] at *
    omega
  | none =>
    simp only [trimHistory, h]
    exact lastN_length_le _ _

theorem not_system_of_mem_filter {m : Message} {l : List Message}
    (h : m ∈ l.filter fun x => !isSystem x) : isSystem m = false := by
  have := (List.mem_filter.mp h).2
  simpa using this

theorem countP_lastN_filter_eq_zero (n : Nat) (l : List Message) :
    (lastN n (l.filter fun m => !isSystem m)).countP isSystem = 0 := by
  rw [List.countP_eq_zero]
  intro a ha
  simpa using not_system_of_mem_filter (mem_of_mem_lastN ha)

theorem trimHistory_countP_le (l : List Message) :
    (trimHistory l).countP isSystem ≤ 1 := by
  cases h : l.find? isSystem with
  | some sys =>
    simp only [trimHistory, h, List.countP_cons, countP_lastN_filter_eq_zero]
    split <;> simp
  | none =>
    simp only [trimHistory, h, countP_lastN_filter_eq_zero]
    exact Nat.zero_le 1

theorem find?_append_left {l₁ l₂ : List Message} {p : Message → Bool} {a : Message}
    (h : l₁.find? p = some a) : (l₁ ++ l₂).find? p = some a := by
  rw [List.find?_append, h]
  rfl

theorem trimHistory_head_of_find {l : List Message} {sys : Message}
    (h : l.find? isSystem = some sys) :
    trimHistory l = sys :: lastN (MAX_HISTORY - 1) (l.filter fun m => !isSystem m) := by
  simp only [trimHistory, h]

end Baymax

namespace Baymax

/-- The in-memory history sent to the model: the trimmed history with the
synthetic context message prepended when the context is non-empty
(lines 262-268). -/
def augmentedHistory (h0 : List Message) (san : String) (vec : VectorOutcome) : List Message :=
  if computeContext vec = "" then trimHistory (h0 ++ [⟨"user", san⟩])
  else contextMessage (computeContext vec) :: trimHistory (h0 ++ [⟨"user", san⟩])

theorem chatCore_persisted_shape (sid san : String) (stored : StoredRaw) (vec : VectorOutcome)
    (model : ModelOutcome) (effs0 : List Effect) (p : List Message)
    (hp : (chatCore sid san stored vec model effs0).persisted = some p) :
    ∃ h0 data,
      readHistory stored = Except.ok h0 ∧ model = ModelOutcome.ok data ∧
      (chatCore sid san stored vec model effs0).status = 200 ∧
      (chatCore sid san stored vec model effs0).contextOut = some (computeContext vec) ∧
      (chatCore sid san stored vec model effs0).sentToModel = some (augmentedHistory h0 san vec) ∧
      p = augmentedHistory h0 san vec ++ [⟨"assistant", jsTrim (rawReplyOf data)⟩] := by
  cases hr : readHistory stored with
  | error e => simp [chatCore, hr, internalErrorOutcome] at hp
  | ok h0 =>
    cases model with
    | err s b => simp [chatCore, hr] at hp
    | ok data =>
      refine ⟨h0, data, rfl, rfl, ?_, ?_, ?_, ?_⟩
      all_goals simp [chatCore, hr, augmentedHistory] at hp ⊢
      all_goals simp [hp.symm]

theorem chatCore_err_facts (sid san : String) (stored : StoredRaw) (vec : VectorOutcome)
    (s : Nat) (b : String) (effs0 : List Effect) :
    (chatCore sid san stored vec (ModelOutcome.err s b) effs0).persisted = none ∧
    ((chatCore sid san stored vec (ModelOutcome.err s b) effs0).sentToModel ≠ none →
      (chatCore sid san stored vec (ModelOutcome.err s b) effs0).status = 502 ∧
      (chatCore sid san stored vec (ModelOutcome.err s b) effs0).upstreamStatus = some s ∧
      (chatCore sid san stored vec (ModelOutcome.err s b) effs0).detail = some b) := by
  cases hr : readHistory stored <;> simp [chatCore, hr, internalErrorOutcome]

theorem chatCore_ok_reached (sid san : String) (stored : StoredRaw) (vec : VectorOutcome)
    (data : Option GroqResponse) (effs0 : List Effect)
    (hreach : (chatCore sid san stored vec (ModelOutcome.ok data) effs0).sentToModel ≠ none) :
    (chatCore sid san stored vec (ModelOutcome.ok data) effs0).status = 200 ∧
    (chatCore sid san stored vec (ModelOutcome.ok data) effs0).contextOut =
      some (computeContext vec) ∧
    (chatCore sid san stored vec (ModelOutcome.ok data) effs0).embeddingsOut =
      computeEmbeddings vec := by
  cases hr : readHistory stored with
  | error e => simp [chatCore, hr, internalErrorOutcome] at hreach
  | ok h0 => simp [chatCore, hr]

theorem handleChatRequest_shape (method : String) (auth : TokenAuth) (cl : Option Nat)
    (bl : Nat) (parsed : Option ChatBody) (owner : Option String) (stored : StoredRaw)
    (vec : VectorOutcome) (model : ModelOutcome) :
    (∃ st msg eff, handleChatRequest method auth cl bl parsed owner stored vec model =
        errOutcome st msg eff) ∨
    (∃ sid san effs, handleChatRequest method auth cl bl parsed owner stored vec model =
        chatCore sid san stored vec model effs) := by
  unfold handleChatRequest
  split
  · exact Or.inl ⟨_, _, _, rfl⟩
  · cases auth with
    | missing => exact Or.inl ⟨_, _, _, rfl⟩
    | invalid => exact Or.inl ⟨_, _, _, rfl⟩
    | valid username nearExpiry =>
      simp only []
      split
      · exact Or.inl ⟨_, _, _, rfl⟩
      · split
        · exact Or.inl ⟨_, _, _, rfl⟩
        · split
          · exact Or.inl ⟨_, _, _, rfl⟩
          · split
            · exact Or.inl ⟨_, _, _, rfl⟩
            · split
              · exact Or.inl ⟨_, _, _, rfl⟩
              · split
                · split
                  · exact Or.inl ⟨_, _, _, rfl⟩
                  · exact Or.inr ⟨_, _, _, rfl⟩
                · exact Or.inr ⟨_, _, _, rfl⟩

end Baymax

namespace Baymax

theorem countP_singleton_assistant (c : String) :
    ([(⟨"assistant", c⟩ : Message)]).countP isSystem = 0 := by
  simp [List.countP_cons, isSystem]

/-- Claim C1 counterexample: with a stored history already holding MAX_HISTORY
entries, a successful chat turn persists MAX_HISTORY + 1 messages, because the
trim of lines 230-232 runs after the user message is appended but before the
assistant reply is appended at line 295.  The persisted record therefore
exceeds the configured maximum, refuting the claim that it never does. -/
theorem history_cap_counterexample :
    (handleChatRequest "POST" (TokenAuth.valid "alice" false) none 0
        (some ⟨some "hi", some "s1"⟩) (some "alice")
        (StoredRaw.array (defaultSystemMessage :: List.replicate 19 ⟨"user", "x"⟩))
        VectorOutcome.failure (ModelOutcome.ok none)).status = 200 ∧
    ((handleChatRequest "POST" (TokenAuth.valid "alice" false) none 0
        (some ⟨some "hi", some "s1"⟩) (some "alice")
        (StoredRaw.array (defaultSystemMessage :: List.replicate 19 ⟨"user", "x"⟩))
        VectorOutcome.failure (ModelOutcome.ok none)).persisted.getD []).length = MAX_HISTORY + 1 := by
  exact ⟨by decide, by decide⟩

/-- Claim C1 (amended): whenever the primary POST chat handler persists a
history record, the record has at most MAX_HISTORY + 2 entries (the cap is
applied before the optional context message and the assistant reply are
appended, so up to two extra messages ride on top of it).  When no context
message was added, the record holds at most one system message, and if the
loaded history contained one, its first system message is the head of the
record.  When a context message was added, that synthetic message is the head
instead. -/
theorem chat_persisted_history_bounds (method : String) (auth : TokenAuth) (cl : Option Nat)
    (bl : Nat) (parsed : Option ChatBody) (owner : Option String) (stored : StoredRaw)
    (vec : VectorOutcome) (model : ModelOutcome) (p : List Message)
    (hp : (handleChatRequest method auth cl bl parsed owner stored vec model).persisted = some p) :
    p.length ≤ MAX_HISTORY + 2 ∧
    (computeContext vec = "" →
      p.countP isSystem ≤ 1 ∧
      ∀ h0 sys, readHistory stored = Except.ok h0 →
        h0.find? isSystem = some sys → p.head? = some sys) ∧
    (computeContext vec ≠ "" → p.head? = some (contextMessage (computeContext vec))) := by
  rcases handleChatRequest_shape method auth cl bl parsed owner stored vec model with
    ⟨st, msg, eff, heq⟩ | ⟨sid, san, effs, heq⟩
  · rw [heq] at hp
    simp [errOutcome] at hp
  · rw [heq] at hp
    obtain ⟨h0, data, hr, hm, _, _, _, hpe⟩ := chatCore_persisted_shape _ _ _ _ _ _ _ hp
    subst hpe
    refine ⟨?_, ?_, ?_⟩
    · have ht := trimHistory_length_le (h0 ++ [⟨"user", san⟩])
      by_cases hc : computeContext vec = "" <;>
        simp [augmentedHistory, hc, List.length_append] <;> omega
    · intro hc
      constructor
      · have ht := trimHistory_countP_le (h0 ++ [⟨"user", san⟩])
        simp [augmentedHistory, hc, List.countP_append, countP_singleton_assistant]
        omega
      · intro h0' sys hr' hfind
        rw [hr] at hr'
        injection hr' with hh
        subst hh
        have hf2 : (h0 ++ [(⟨"user", san⟩ : Message)]).find? isSystem = some sys :=
          find?_append_left hfind
        rw [augmentedHistory, if_pos hc, trimHistory_head_of_find hf2]
        simp
    · intro hc
      simp [augmentedHistory, hc]

/-- Witness for claim C1 (amended), instantiating the theorem at a concrete
successful turn with empty prior history. -/
theorem chat_persisted_history_bounds_witness :
    ([defaultSystemMessage, ⟨"user", "hi"⟩, ⟨"assistant", "Model returned no reply"⟩] : List Message).length ≤ MAX_HISTORY + 2 ∧
    (computeContext VectorOutcome.failure = "" →
      ([defaultSystemMessage, ⟨"user", "hi"⟩, ⟨"assistant", "Model returned no reply"⟩] : List Message).countP isSystem ≤ 1 ∧
      ∀ h0 sys, readHistory StoredRaw.absent = Except.ok h0 →
        h0.find? isSystem = some sys →
        ([defaultSystemMessage, ⟨"user", "hi"⟩, ⟨"assistant", "Model returned no reply"⟩] : List Message).head? = some sys) ∧
    (computeContext VectorOutcome.failure ≠ "" →
      ([defaultSystemMessage, ⟨"user", "hi"⟩, ⟨"assistant", "Model returned no reply"⟩] : List Message).head? =
        some (contextMessage (computeContext VectorOutcome.failure))) :=
  chat_persisted_history_bounds "POST" (TokenAuth.valid "alice" false) none 0
    (some (⟨some "hi", some "s1"⟩ : ChatBody)) (some "alice") StoredRaw.absent
    VectorOutcome.failure (ModelOutcome.ok none)
    [defaultSystemMessage, ⟨"user", "hi"⟩, ⟨"assistant", "Model returned no reply"⟩]
    (by decide)

end Baymax

namespace Baymax

theorem formatVectorResult_length_pos (r : VectorResult) :
    0 < (formatVectorResult r).length := by
  have h4 : ("â€¢ " : String).length = 4 := by decide
  simp [formatVectorResult, String.length_append, h4]

theorem joinLines_length_ge (s : String) (rest : List String) :
    s.length ≤ (joinLines (s :: rest)).length := by
  cases rest with
  | nil => simp [joinLines]
  | cons x xs =>
    simp [joinLines, String.length_append]
    omega

theorem computeContext_ok_ne_empty {results : List VectorResult} (h : results ≠ []) :
    computeContext (VectorOutcome.ok results) ≠ "" := by
  cases results with
  | nil => exact absurd rfl h
  | cons r rest =>
    intro hc
    simp only [computeContext, List.isEmpty_cons, Bool.false_eq_true, if_false,
      List.map_cons] at hc
    have h1 := joinLines_length_ge (formatVectorResult r) (rest.map formatVectorResult)
    have h2 := formatVectorResult_length_pos r
    have h3 := congrArg String.length hc
    simp at h3
    omega

/-- Claim C2 counterexample: when the vector search succeeds with a non-empty
result list, the synthetic context system message is the head of the record
persisted to the store -- line 263 unshifts it into the same array that
line 296 persists -- refuting the claim that it is never persisted. -/
theorem context_persisted_counterexample :
    (handleChatRequest "POST" (TokenAuth.valid "alice" false) none 0
        (some (⟨some "hi", some "s1"⟩ : ChatBody)) (some "alice") StoredRaw.absent
        (VectorOutcome.ok [⟨some "Aspirin", some "pain", some "nausea"⟩])
        (ModelOutcome.ok none)).status = 200 ∧
    ((handleChatRequest "POST" (TokenAuth.valid "alice" false) none 0
        (some (⟨some "hi", some "s1"⟩ : ChatBody)) (some "alice") StoredRaw.absent
        (VectorOutcome.ok [⟨some "Aspirin", some "pain", some "nausea"⟩])
        (ModelOutcome.ok none)).persisted.getD []).head? =
      some (contextMessage "â€¢ Aspirin: Used for pain. Side effects: nausea") :=
  ⟨by decide, by decide⟩

/-- Claim C2 (amended): when the vector search succeeds with non-empty
results, the synthetic context system message is prepended to the in-memory
history sent to the model and is ALSO persisted: the stored record equals the
history sent to the model with the assistant reply appended, and both start
with the synthetic context message. -/
theorem context_message_is_persisted (method : String) (auth : TokenAuth) (cl : Option Nat)
    (bl : Nat) (parsed : Option ChatBody) (owner : Option String) (stored : StoredRaw)
    (results : List VectorResult) (model : ModelOutcome) (p : List Message)
    (hres : results ≠ [])
    (hp : (handleChatRequest method auth cl bl parsed owner stored
        (VectorOutcome.ok results) model).persisted = some p) :
    ∃ sent r,
      (handleChatRequest method auth cl bl parsed owner stored
        (VectorOutcome.ok results) model).sentToModel = some sent ∧
      sent.head? = some (contextMessage (computeContext (VectorOutcome.ok results))) ∧
      p = sent ++ [⟨"assistant", r⟩] ∧
      p.head? = some (contextMessage (computeContext (VectorOutcome.ok results))) := by
  rcases handleChatRequest_shape method auth cl bl parsed owner stored
      (VectorOutcome.ok results) model with ⟨st, msg, eff, heq⟩ | ⟨sid, san, effs, heq⟩
  · rw [heq] at hp
    simp [errOutcome] at hp
  · rw [heq] at hp ⊢
    obtain ⟨h0, data, hr, hm, _, _, hsent, hpe⟩ := chatCore_persisted_shape _ _ _ _ _ _ _ hp
    have hc := computeContext_ok_ne_empty hres
    refine ⟨augmentedHistory h0 san (VectorOutcome.ok results),
      jsTrim (rawReplyOf data), hsent, ?_, hpe, ?_⟩
    · rw [augmentedHistory, if_neg hc]
      simp
    · rw [hpe, augmentedHistory, if_neg hc]
      simp

/-- Witness for claim C2 (amended) at a concrete turn with one search
result. -/
theorem context_message_is_persisted_witness :
    ∃ sent r,
      (handleChatRequest "POST" (TokenAuth.valid "alice" false) none 0
        (some (⟨some "hi", some "s1"⟩ : ChatBody)) (some "alice") StoredRaw.absent
        (VectorOutcome.ok [⟨some "Aspirin", some "pain", some "nausea"⟩])
        (ModelOutcome.ok none)).sentToModel = some sent ∧
      sent.head? = some (contextMessage (computeContext
        (VectorOutcome.ok [⟨some "Aspirin", some "pain", some "nausea"⟩]))) ∧
      ((handleChatRequest "POST" (TokenAuth.valid "alice" false) none 0
        (some (⟨some "hi", some "s1"⟩ : ChatBody)) (some "alice") StoredRaw.absent
        (VectorOutcome.ok [⟨some "Aspirin", some "pain", some "nausea"⟩])
        (ModelOutcome.ok none)).persisted.getD []) = sent ++ [⟨"assistant", r⟩] ∧
      ((handleChatRequest "POST" (TokenAuth.valid "alice" false) none 0
        (some (⟨some "hi", some "s1"⟩ : ChatBody)) (some "alice") StoredRaw.absent
        (VectorOutcome.ok [⟨some "Aspirin", some "pain", some "nausea"⟩])
        (ModelOutcome.ok none)).persisted.getD []).head? =
        some (contextMessage (computeContext
          (VectorOutcome.ok [⟨some "Aspirin", some "pain", some "nausea"⟩]))) := by
  obtain ⟨sent, r, h1, h2, h3, h4⟩ :=
    context_message_is_persisted "POST" (TokenAuth.valid "alice" false) none 0
      (some (⟨some "hi", some "s1"⟩ : ChatBody)) (some "alice") StoredRaw.absent
      [⟨some "Aspirin", some "pain", some "nausea"⟩] (ModelOutcome.ok none)
      ((handleChatRequest "POST" (TokenAuth.valid "alice" false) none 0
        (some (⟨some "hi", some "s1"⟩ : ChatBody)) (some "alice") StoredRaw.absent
        (VectorOutcome.ok [⟨some "Aspirin", some "pain", some "nausea"⟩])
        (ModelOutcome.ok none)).persisted.getD [])
      (by decide) (by decide)
  exact ⟨sent, r, h1, h2, h3, h4⟩

end Baymax

namespace Baymax

/-- Claim C3: when the model call returns a non-success HTTP status, no write
of the session history record occurs (persisted is none on every path), and if
the request actually reached the model call, the response is 502 carrying the
upstream status and body. -/
theorem upstream_error_propagates (method : String) (auth : TokenAuth) (cl : Option Nat)
    (bl : Nat) (parsed : Option ChatBody) (owner : Option String) (stored : StoredRaw)
    (vec : VectorOutcome) (s : Nat) (b : String) :
    (handleChatRequest method auth cl bl parsed owner stored vec
      (ModelOutcome.err s b)).persisted = none ∧
    ((handleChatRequest method auth cl bl parsed owner stored vec
        (ModelOutcome.err s b)).sentToModel ≠ none →
      (handleChatRequest method auth cl bl parsed owner stored vec
        (ModelOutcome.err s b)).status = 502 ∧
      (handleChatRequest method auth cl bl parsed owner stored vec
        (ModelOutcome.err s b)).upstreamStatus = some s ∧
      (handleChatRequest method auth cl bl parsed owner stored vec
        (ModelOutcome.err s b)).detail = some b) := by
  rcases handleChatRequest_shape method auth cl bl parsed owner stored vec
      (ModelOutcome.err s b) with ⟨st, msg, eff, heq⟩ | ⟨sid, san, effs, heq⟩
  · rw [heq]
    simp [errOutcome]
  · rw [heq]
    exact chatCore_err_facts sid san stored vec s b effs

/-- Witness for claim C3 at a concrete request whose model call fails with
status 500 and body boom. -/
theorem upstream_error_propagates_witness :
    (handleChatRequest "POST" (TokenAuth.valid "alice" false) none 0
      (some (⟨some "hi", some "s1"⟩ : ChatBody)) (some "alice") StoredRaw.absent
      VectorOutcome.failure (ModelOutcome.err 500 "boom")).persisted = none ∧
    ((handleChatRequest "POST" (TokenAuth.valid "alice" false) none 0
      (some (⟨some "hi", some "s1"⟩ : ChatBody)) (some "alice") StoredRaw.absent
      VectorOutcome.failure (ModelOutcome.err 500 "boom")).status = 502 ∧
    (handleChatRequest "POST" (TokenAuth.valid "alice" false) none 0
      (some (⟨some "hi", some "s1"⟩ : ChatBody)) (some "alice") StoredRaw.absent
      VectorOutcome.failure (ModelOutcome.err 500 "boom")).upstreamStatus = some 500 ∧
    (handleChatRequest "POST" (TokenAuth.valid "alice" false) none 0
      (some (⟨some "hi", some "s1"⟩ : ChatBody)) (some "alice") StoredRaw.absent
      VectorOutcome.failure (ModelOutcome.err 500 "boom")).detail = some "boom") :=
  ⟨(upstream_error_propagates "POST" (TokenAuth.valid "alice" false) none 0
      (some (⟨some "hi", some "s1"⟩ : ChatBody)) (some "alice") StoredRaw.absent
      VectorOutcome.failure 500 "boom").1,
   (upstream_error_propagates "POST" (TokenAuth.valid "alice" false) none 0
      (some (⟨some "hi", some "s1"⟩ : ChatBody)) (some "alice") StoredRaw.absent
      VectorOutcome.failure 500 "boom").2 (by decide)⟩

/-- Claim C4: a POST request to the primary chat endpoint whose bearer token
is missing or fails verification (invalid or expired) is answered 401 with an
empty effect list: no read or write of any store and no upstream call. -/
theorem unauthorized_no_side_effects (auth : TokenAuth) (cl : Option Nat) (bl : Nat)
    (parsed : Option ChatBody) (owner : Option String) (stored : StoredRaw)
    (vec : VectorOutcome) (model : ModelOutcome)
    (hauth : auth = TokenAuth.missing ∨ auth = TokenAuth.invalid) :
    (handleChatRequest "POST" auth cl bl parsed owner stored vec model).status = 401 ∧
    (handleChatRequest "POST" auth cl bl parsed owner stored vec model).effects = [] ∧
    (handleChatRequest "POST" auth cl bl parsed owner stored vec model).sentToModel = none ∧
    (handleChatRequest "POST" auth cl bl parsed owner stored vec model).persisted = none := by
  rcases hauth with h | h <;> subst h <;> exact ⟨rfl, rfl, rfl, rfl⟩

/-- Witness for claim C4 at a concrete request with no bearer token. -/
theorem unauthorized_no_side_effects_witness :
    (handleChatRequest "POST" TokenAuth.missing none 0 none none StoredRaw.absent
      VectorOutcome.failure (ModelOutcome.ok none)).status = 401 ∧
    (handleChatRequest "POST" TokenAuth.missing none 0 none none StoredRaw.absent
      VectorOutcome.failure (ModelOutcome.ok none)).effects = [] ∧
    (handleChatRequest "POST" TokenAuth.missing none 0 none none StoredRaw.absent
      VectorOutcome.failure (ModelOutcome.ok none)).sentToModel = none ∧
    (handleChatRequest "POST" TokenAuth.missing none 0 none none StoredRaw.absent
      VectorOutcome.failure (ModelOutcome.ok none)).persisted = none :=
  unauthorized_no_side_effects TokenAuth.missing none 0 none none StoredRaw.absent
    VectorOutcome.failure (ModelOutcome.ok none) (Or.inl rfl)

theorem bodyTooLarge_true_of {cl : Option Nat} {bl : Nat}
    (h : JSON_BODY_LIMIT < bl ∨ ∃ n, cl = some n ∧ JSON_BODY_LIMIT < n) :
    bodyTooLarge cl bl = true := by
  rcases h with h | ⟨n, hcl, hn⟩
  · simp [bodyTooLarge, h]
  · subst hcl
    simp [bodyTooLarge, hn]

/-- Claim C5 counterexample: an oversized request (declared content-length
65537 over the 65536 limit) from a caller whose valid token is near expiry
performs the refresh-token write to the users store (line 209) before the body
is parsed and rejected, refuting the claim that no key-value store write
precedes the rejection. -/
theorem oversized_body_write_counterexample :
    (handleChatRequest "POST" (TokenAuth.valid "alice" true) (some 65537) 0 none none
      StoredRaw.absent VectorOutcome.failure (ModelOutcome.ok none)).status = 400 ∧
    (handleChatRequest "POST" (TokenAuth.valid "alice" true) (some 65537) 0 none none
      StoredRaw.absent VectorOutcome.failure (ModelOutcome.ok none)).effects =
      [Effect.usersPut "alice_token"] :=
  ⟨by decide, by decide⟩

/-- Claim C5 (amended): a request whose declared content-length or measured
body length exceeds JSON_BODY_LIMIT is rejected with 400 (the size error of
parseJsonLimited is swallowed into a null body) before any history-store
access and before any upstream call; the only store write that can precede the
rejection is the refresh-token write performed for a near-expiry token. -/
theorem oversized_body_rejected (username : String) (nearExpiry : Bool) (cl : Option Nat)
    (bl : Nat) (parsed : Option ChatBody) (owner : Option String) (stored : StoredRaw)
    (vec : VectorOutcome) (model : ModelOutcome)
    (hbig : JSON_BODY_LIMIT < bl ∨ ∃ n, cl = some n ∧ JSON_BODY_LIMIT < n) :
    (handleChatRequest "POST" (TokenAuth.valid username nearExpiry) cl bl parsed owner
      stored vec model).status = 400 ∧
    (handleChatRequest "POST" (TokenAuth.valid username nearExpiry) cl bl parsed owner
      stored vec model).persisted = none ∧
    (handleChatRequest "POST" (TokenAuth.valid username nearExpiry) cl bl parsed owner
      stored vec model).sentToModel = none ∧
    (handleChatRequest "POST" (TokenAuth.valid username nearExpiry) cl bl parsed owner
      stored vec model).effects = refreshEffects username nearExpiry := by
  have hb := bodyTooLarge_true_of hbig
  simp [handleChatRequest, hb, errOutcome]

/-- Witness for claim C5 (amended) at a concrete oversized request. -/
theorem oversized_body_rejected_witness :
    (handleChatRequest "POST" (TokenAuth.valid "alice" true) (some 65537) 0 none none
      StoredRaw.absent VectorOutcome.failure (ModelOutcome.ok none)).status = 400 ∧
    (handleChatRequest "POST" (TokenAuth.valid "alice" true) (some 65537) 0 none none
      StoredRaw.absent VectorOutcome.failure (ModelOutcome.ok none)).persisted = none ∧
    (handleChatRequest "POST" (TokenAuth.valid "alice" true) (some 65537) 0 none none
      StoredRaw.absent VectorOutcome.failure (ModelOutcome.ok none)).sentToModel = none ∧
    (handleChatRequest "POST" (TokenAuth.valid "alice" true) (some 65537) 0 none none
      StoredRaw.absent VectorOutcome.failure (ModelOutcome.ok none)).effects =
      refreshEffects "alice" true :=
  oversized_body_rejected "alice" true (some 65537) 0 none none StoredRaw.absent
    VectorOutcome.failure (ModelOutcome.ok none) (Or.inr ⟨65537, rfl, by decide⟩)

/-- Claim C6: when the vector-search call fails in any modelled way (thrown
error or timeout, non-OK status, malformed body), the failure alone never
changes the response: if the request reached the upstream calls and the model
call succeeded, the response has status 200 with an empty context and no
embeddings. -/
theorem search_failure_absorbed (method : String) (auth : TokenAuth) (cl : Option Nat)
    (bl : Nat) (parsed : Option ChatBody) (owner : Option String) (stored : StoredRaw)
    (vec : VectorOutcome) (data : Option GroqResponse)
    (hvec : vec = VectorOutcome.failure ∨ vec = VectorOutcome.notOk ∨
      vec = VectorOutcome.malformed)
    (hreach : (handleChatRequest method auth cl bl parsed owner stored vec
      (ModelOutcome.ok data)).sentToModel ≠ none) :
    (handleChatRequest method auth cl bl parsed owner stored vec
      (ModelOutcome.ok data)).status = 200 ∧
    (handleChatRequest method auth cl bl parsed owner stored vec
      (ModelOutcome.ok data)).contextOut = some "" ∧
    (handleChatRequest method auth cl bl parsed owner stored vec
      (ModelOutcome.ok data)).embeddingsOut = [] := by
  rcases handleChatRequest_shape method auth cl bl parsed owner stored vec
      (ModelOutcome.ok data) with ⟨st, msg, eff, heq⟩ | ⟨sid, san, effs, heq⟩
  · rw [heq] at hreach
    simp [errOutcome] at hreach
  · rw [heq] at hreach ⊢
    have hres := chatCore_ok_reached sid san stored vec data effs hreach
    have hctx : computeContext vec = "" := by
      rcases hvec with h | h | h <;> subst h <;> rfl
    have hemb : computeEmbeddings vec = [] := by
      rcases hvec with h | h | h <;> subst h <;> rfl
    rw [hctx] at hres
    rw [hemb] at hres
    exact hres

/-- Witness for claim C6 at a concrete turn whose vector call throws. -/
theorem search_failure_absorbed_witness :
    (handleChatRequest "POST" (TokenAuth.valid "alice" false) none 0
      (some (⟨some "hi", some "s1"⟩ : ChatBody)) (some "alice") StoredRaw.absent
      VectorOutcome.failure (ModelOutcome.ok none)).status = 200 ∧
    (handleChatRequest "POST" (TokenAuth.valid "alice" false) none 0
      (some (⟨some "hi", some "s1"⟩ : ChatBody)) (some "alice") StoredRaw.absent
      VectorOutcome.failure (ModelOutcome.ok none)).contextOut = some "" ∧
    (handleChatRequest "POST" (TokenAuth.valid "alice" false) none 0
      (some (⟨some "hi", some "s1"⟩ : ChatBody)) (some "alice") StoredRaw.absent
      VectorOutcome.failure (ModelOutcome.ok none)).embeddingsOut = [] :=
  search_failure_absorbed "POST" (TokenAuth.valid "alice" false) none 0
    (some (⟨some "hi", some "s1"⟩ : ChatBody)) (some "alice") StoredRaw.absent
    VectorOutcome.failure none (Or.inl rfl) (by decide)

end Baymax

namespace Baymax

theorem login_fail_first (t : Nat) (ue : Bool) :
    login t ⟨none, none⟩ ue false =
      (LoginResult.invalidCred, ⟨some (1, t + LOGIN_BLOCK_TTL), none⟩) := by
  simp [login, isBlocked, liveAttempts, LOGIN_ATTEMPT_LIMIT]

theorem login_fail_step (t k exp : Nat) (ht : t < exp) (ue : Bool)
    (hk : k + 1 < LOGIN_ATTEMPT_LIMIT) :
    login t ⟨some (k, exp), none⟩ ue false =
      (LoginResult.invalidCred, ⟨some (k + 1, t + LOGIN_BLOCK_TTL), none⟩) := by
  have hlt : ¬ (LOGIN_ATTEMPT_LIMIT ≤ k + 1) := by omega
  simp [login, isBlocked, liveAttempts, ht, hlt]

theorem login_fail_block (t exp : Nat) (ht : t < exp) (ue : Bool) :
    login t ⟨some (LOGIN_ATTEMPT_LIMIT - 1, exp), none⟩ ue false =
      (LoginResult.tooMany,
        ⟨some (LOGIN_ATTEMPT_LIMIT, t + LOGIN_BLOCK_TTL), some (t + LOGIN_BLOCK_TTL)⟩) := by
  simp [login, isBlocked, liveAttempts, ht, LOGIN_ATTEMPT_LIMIT]

theorem login_blocked (t : Nat) (s : LoginState) (exp : Nat) (hb : s.blocked = some exp)
    (ht : t < exp) (ue ok : Bool) : (login t s ue ok).1 = LoginResult.tooMany := by
  simp [login, isBlocked, hb, ht]

/-- Claim C7: five consecutive failed logins inside the sliding lockout window
block the username; while the block is live every further attempt, with any
credentials, returns the TooManyAttempts result. -/
theorem login_lockout (t1 t2 t3 t4 t5 : Nat)
    (h2 : t2 < t1 + LOGIN_BLOCK_TTL) (h3 : t3 < t2 + LOGIN_BLOCK_TTL)
    (h4 : t4 < t3 + LOGIN_BLOCK_TTL) (h5 : t5 < t4 + LOGIN_BLOCK_TTL) :
    (login t5 (afterFailedAttempts [t1, t2, t3, t4]) true false).1 = LoginResult.tooMany ∧
    ∀ t, t < t5 + LOGIN_BLOCK_TTL → ∀ userExists credOk,
      (login t (afterFailedAttempts [t1, t2, t3, t4, t5]) userExists credOk).1 =
        LoginResult.tooMany := by
  have l1 := login_fail_first t1 true
  have l2 := login_fail_step t2 1 (t1 + LOGIN_BLOCK_TTL) h2 true (by simp [LOGIN_ATTEMPT_LIMIT])
  have l3 := login_fail_step t3 2 (t2 + LOGIN_BLOCK_TTL) h3 true (by simp [LOGIN_ATTEMPT_LIMIT])
  have l4 := login_fail_step t4 3 (t3 + LOGIN_BLOCK_TTL) h4 true (by simp [LOGIN_ATTEMPT_LIMIT])
  have hs4 : afterFailedAttempts [t1, t2, t3, t4] =
      ⟨some (4, t4 + LOGIN_BLOCK_TTL), none⟩ := by
    simp [afterFailedAttempts, l1, l2, l3, l4]
  have hblock := login_fail_block t5 (t4 + LOGIN_BLOCK_TTL) h5 true
  simp only [LOGIN_ATTEMPT_LIMIT] at hblock
  constructor
  · rw [hs4, hblock]
  · intro t ht ue ok
    have hs5 : afterFailedAttempts [t1, t2, t3, t4, t5] =
        ⟨some (5, t5 + LOGIN_BLOCK_TTL), some (t5 + LOGIN_BLOCK_TTL)⟩ := by
      simp [afterFailedAttempts, l1, l2, l3, l4, hblock]
    rw [hs5]
    exact login_blocked t _ (t5 + LOGIN_BLOCK_TTL) rfl ht ue ok

/-- Witness for claim C7 with all five failures at time 0 and a sixth correct
attempt at time 10, inside the lockout window. -/
theorem login_lockout_witness :
    (login 0 (afterFailedAttempts [0, 0, 0, 0]) true false).1 = LoginResult.tooMany ∧
    (login 10 (afterFailedAttempts [0, 0, 0, 0, 0]) true true).1 = LoginResult.tooMany :=
  ⟨(login_lockout 0 0 0 0 0 (by decide) (by decide) (by decide) (by decide)).1,
   (login_lockout 0 0 0 0 0 (by decide) (by decide) (by decide) (by decide)).2
     10 (by decide) true true⟩

end Baymax

namespace Baymax

/-- Claim C8 counterexample: a stored history value that is not valid JSON
makes the chat request fail with 500 -- JSON.parse throws into the outer
catch -- and the part_001 variant read also throws, refuting the claim that a
parse failure never surfaces as an error response. -/
theorem malformed_history_counterexample :
    (handleChatRequest "POST" (TokenAuth.valid "alice" false) none 0
      (some (⟨some "hi", some "s1"⟩ : ChatBody)) (some "alice") StoredRaw.invalidJson
      VectorOutcome.failure (ModelOutcome.ok none)).status = 500 ∧
    readHistoryChecked StoredRaw.invalidJson = Except.error () :=
  ⟨by decide, rfl⟩

/-- Claim C8 (amended): a stored value that is valid JSON but not an array is
silently reset to the default single-system-message history only in the
part_001 variant (its explicit isArray check); in the primary worker the same
value throws, and in both variants a stored value that is not valid JSON
throws at JSON.parse, so the request fails with a generic 500 instead of a
silent reset. -/
theorem stored_history_parse_policy :
    readHistoryChecked StoredRaw.nonArray = Except.ok [defaultSystemMessage] ∧
    readHistoryChecked StoredRaw.absent = Except.ok [defaultSystemMessage] ∧
    readHistoryChecked StoredRaw.invalidJson = Except.error () ∧
    readHistory StoredRaw.nonArray = Except.error () ∧
    readHistory StoredRaw.invalidJson = Except.error () ∧
    readHistory StoredRaw.absent = Except.ok [defaultSystemMessage] ∧
    (handleChatRequest "POST" (TokenAuth.valid "alice" false) none 0
      (some (⟨some "hi", some "s1"⟩ : ChatBody)) (some "alice") StoredRaw.nonArray
      VectorOutcome.failure (ModelOutcome.ok none)).status = 500 :=
  ⟨rfl, rfl, rfl, rfl, rfl, rfl, by decide⟩

/-- Claim C9: the reply text extracted from a successful model response is
the first defined value of, in order: the first choice message content, the
first choice text field, the top-level reply field when it is a string, and
otherwise the literal placeholder Model returned no reply. -/
theorem reply_extraction_order (data : Option GroqResponse) :
    rawReplyOf data =
      match firstChoiceContent data, firstChoiceText data, topLevelReply data with
      | some c, _, _ => c
      | none, some t, _ => t
      | none, none, some r => r
      | none, none, none => "Model returned no reply" := by
  cases h1 : firstChoiceContent data <;> cases h2 : firstChoiceText data <;>
    cases h3 : topLevelReply data <;> simp [rawReplyOf, h1, h2, h3, Option.orElse]

/-- Claim C10: a successful login (not blocked, stored hash present, bcrypt
match) deletes both the per-username attempts counter and the block flag
before returning, so a subsequent failed attempt counts from 1 again and is
answered as a plain invalid-credentials failure. -/
theorem login_success_resets (now t : Nat) (s : LoginState) (ue : Bool)
    (hnb : isBlocked now s = false) :
    login now s true true = (LoginResult.success, ⟨none, none⟩) ∧
    (login t (login now s true true).2 ue false).1 = LoginResult.invalidCred ∧
    (login t (login now s true true).2 ue false).2.attempts =
      some (1, t + LOGIN_BLOCK_TTL) := by
  have h1 : login now s true true = (LoginResult.success, ⟨none, none⟩) := by
    simp [login, hnb]
  refine ⟨h1, ?_, ?_⟩ <;> rw [h1] <;>
    simp [login, isBlocked, liveAttempts, LOGIN_ATTEMPT_LIMIT]

/-- Witness for claim C10: a successful login at time 0 with three prior
failures on the counter, followed by a failed attempt at time 50. -/
theorem login_success_resets_witness :
    login 0 (⟨some (3, 100), none⟩ : LoginState) true true = (LoginResult.success, ⟨none, none⟩) ∧
    (login 50 (login 0 (⟨some (3, 100), none⟩ : LoginState) true true).2 true false).1 =
      LoginResult.invalidCred ∧
    (login 50 (login 0 (⟨some (3, 100), none⟩ : LoginState) true true).2 true false).2.attempts =
      some (1, 50 + LOGIN_BLOCK_TTL) :=
  login_success_resets 0 50 ⟨some (3, 100), none⟩ true (by decide)

end Baymax
